import Mathlib

/-!
Verification development for the sludgewire FEC-filing ingestion pipeline.

Shallow embedding of the Python source under `src/app/`:
  * `feeds.py`       — RSS item model, filing-id inference, mm/dd/yyyy parsing
  * `fec_parse.py`   — size-limited download, two-tier Schedule E extraction,
                       content-addressed event ids (SHA-256)
  * `repo.py`        — claim ledger, status updates, summary upsert, event insert
  * `ingest_f3x.py`  — the F3X polling pass
  * `ingest_ie.py`   — the IE (Schedule E) polling pass
  * `backfill.py` / `api.py` — backfill job status checks

Conventions used throughout the embedding:
  * Python exceptions are modelled with `Except PyErr`; a `try/except` block
    becomes a `match` on the inner result.
  * Database tables are lists of rows; `session.get` by primary key is a
    `List.find?` on the key fields.  Timestamp columns (`updated_at`,
    `first_seen_utc`) are omitted: no claim mentions them.
  * Network behaviour (feed contents, download/parse outcomes) is an explicit
    environment parameter, since it is an external input to the code.
  * Python floats carrying money amounts / megabyte sizes are modelled as `ℚ`.
  * Calendar dates are a `year/month/day` record; timestamps compared only by
    their UTC date are modelled as day numbers (`Nat`).
-/

namespace Sludgewire

/-- Whitespace characters removed by Python's `str.strip()` (ASCII part;
the pipeline's feed and filing data is ASCII). -/
def isPyWS (c : Char) : Bool :=
  c = ' ' || c = '\t' || c = '\n' || c = '\r' || c = '\x0B' || c = '\x0C'

/-- Model of Python's `str.strip()`. -/
def pyStrip (s : String) : String :=
  String.mk (((s.data.dropWhile isPyWS).reverse.dropWhile isPyWS).reverse)

/-- Split a character list on a separator character (the groups between
occurrences, in order; empty groups preserved). -/
def chSplit (sep : Char) : List Char → List (List Char)
  | [] => [[]]
  | c :: cs =>
    match chSplit sep cs with
    | [] => [[c]]
    | g :: gs => if c = sep then [] :: g :: gs else (c :: g) :: gs

/-- Model of Python's `str.split(sep)` for a one-character separator (the
only kind the pipeline uses: `/`, `.`, `|`, newline). -/
def splitOnCh (sep : Char) (s : String) : List String :=
  (chSplit sep s.data).map String.mk

/-- Prefix test on character lists. -/
def isPrefixCh : List Char → List Char → Bool
  | [], _ => true
  | _ :: _, [] => false
  | a :: as, b :: bs => a = b && isPrefixCh as bs

/-- Model of Python's `str.startswith`. -/
def startsWithStr (s pre : String) : Bool :=
  isPrefixCh pre.data s.data

/-- Model of Python's `str.endswith`. -/
def endsWithStr (s suf : String) : Bool :=
  isPrefixCh suf.data.reverse s.data.reverse

/-- Value of Python's `int()` on an all-digit string. -/
def strToNat (s : String) : Nat :=
  s.data.foldl (fun n c => n * 10 + (c.toNat - 48)) 0

/-- Model of Python's `abs()` on a (rational-modelled) float. -/
def pyAbs (v : ℚ) : ℚ := if v < 0 then -v else v

/-- Model of Python's slice `s[:n]` (by characters). -/
def pySlice (s : String) (n : Nat) : String := String.mk (s.data.take n)

/-- Character-level test used to model Python's `str.isdigit` on the ASCII
digit strings handled by the pipeline (filing ids, date fields). -/
def digitsOnly (s : String) : Bool :=
  !s.isEmpty && s.data.all Char.isDigit

/-- Model of `token.replace(",", "")` from the fallback amount heuristic in
`fec_parse.extract_schedule_e_best_effort`. -/
def stripCommas (s : String) : String :=
  String.mk (s.data.filter (fun c => c ≠ ','))

/-- Calendar date as produced by `datetime.date`. -/
structure DateT where
  year : Nat
  month : Nat
  day : Nat
deriving DecidableEq, Repr

/-- Gregorian leap-year rule, as enforced by `datetime.date`. -/
def isLeapYear (y : Nat) : Bool :=
  y % 4 == 0 && (y % 100 != 0 || y % 400 == 0)

/-- Number of days in a month, as enforced by `datetime.date`. -/
def daysInMonth (y m : Nat) : Nat :=
  if m == 2 then (if isLeapYear y then 29 else 28)
  else if m == 4 || m == 6 || m == 9 || m == 11 then 30
  else 31

/-- Model of `datetime.strptime(s.strip(), "%m/%d/%Y").date()` wrapped in a
`try/except ValueError` returning `None` — the body shared by
`feeds.parse_mmddyyyy` and `fec_parse._parse_mmddyyyy`.  CPython's `%m` and
`%d` accept one or two digits, `%Y` exactly four digits, and `datetime.date`
then validates the day against the month (and rejects year 0). -/
def parseMMDDYYYYstr (s : String) : Option DateT :=
  let s := pyStrip s
  match splitOnCh '/' s with
  | [ms, ds, ys] =>
    if digitsOnly ms && ms.length ≤ 2 && digitsOnly ds && ds.length ≤ 2
        && digitsOnly ys && ys.length == 4 then
      let m := strToNat ms
      let d := strToNat ds
      let y := strToNat ys
      if 1 ≤ m && m ≤ 12 && 1 ≤ d && d ≤ daysInMonth y m && 1 ≤ y then
        some ⟨y, m, d⟩
      else none
    else none
  | _ => none

/-- Model of `feeds.parse_mmddyyyy`: `None`/empty input short-circuits to
`None`, otherwise the string form above is tried. -/
def parse_mmddyyyy (s : Option String) : Option DateT :=
  s.bind parseMMDDYYYYstr

/-- Shape test for the regex `-?\d+(\.\d+)?` used (as a full match) by the
fallback amount heuristic. -/
def decimalShape (t : String) : Bool :=
  let body := if startsWithStr t "-" then t.drop 1 else t
  match splitOnCh '.' body with
  | [a] => digitsOnly a
  | [a, b] => digitsOnly a && digitsOnly b
  | _ => false

/-- Exact numeric value of a decimal token accepted by `decimalShape`.
Python converts with `float(t)`; the pipeline's amounts are well within the
range where that conversion is faithfully modelled by the exact rational. -/
def decimalValue (t : String) : ℚ :=
  let neg := startsWithStr t "-"
  let body := if neg then t.drop 1 else t
  let v : ℚ :=
    match splitOnCh '.' body with
    | [a] => (strToNat a : ℚ)
    | [a, b] => (strToNat a : ℚ) + (strToNat b : ℚ) / ((10 : ℚ) ^ b.length)
    | _ => 0
  if neg then -v else v

/-- Model of the per-token amount heuristic in the fallback branch of
`fec_parse.extract_schedule_e_best_effort`: strip commas and whitespace,
require the decimal shape, convert, and keep only magnitudes ≥ 1.0. -/
def amountOfToken (token : String) : Option ℚ :=
  let t := pyStrip (stripCommas token)
  if decimalShape t then
    let v := decimalValue t
    if 1 ≤ pyAbs v then some v else none
  else none

/-! ## SHA-256 (`fec_parse.sha256_hex`, via `hashlib.sha256(...).hexdigest()`) -/

/-- Wrap to a 32-bit word. -/
def w32 (n : Nat) : Nat := n % 4294967296

/-- Right rotation of a 32-bit word. -/
def rotr32 (n x : Nat) : Nat := w32 ((x >>> n) ||| (x <<< (32 - n)))

/-- Bitwise complement of a 32-bit word. -/
def notW (x : Nat) : Nat := x ^^^ 4294967295

/-- SHA-256 Σ₀. -/
def bigSigma0 (x : Nat) : Nat := rotr32 2 x ^^^ rotr32 13 x ^^^ rotr32 22 x

/-- SHA-256 Σ₁. -/
def bigSigma1 (x : Nat) : Nat := rotr32 6 x ^^^ rotr32 11 x ^^^ rotr32 25 x

/-- SHA-256 σ₀. -/
def smallSigma0 (x : Nat) : Nat := rotr32 7 x ^^^ rotr32 18 x ^^^ (x >>> 3)

/-- SHA-256 σ₁. -/
def smallSigma1 (x : Nat) : Nat := rotr32 17 x ^^^ rotr32 19 x ^^^ (x >>> 10)

/-- SHA-256 Ch. -/
def chWord (e f g : Nat) : Nat := (e &&& f) ^^^ (notW e &&& g)

/-- SHA-256 Maj. -/
def majWord (a b c : Nat) : Nat := (a &&& b) ^^^ (a &&& c) ^^^ (b &&& c)

/-- The 64 SHA-256 round constants. -/
def shaK : List Nat :=
  [1116352408, 1899447441, 3049323471, 3921009573, 961987163, 1508970993,
   2453635748, 2870763221, 3624381080, 310598401, 607225278, 1426881987,
   1925078388, 2162078206, 2614888103, 3248222580, 3835390401, 4022224774,
   264347078, 604807628, 770255983, 1249150122, 1555081692, 1996064986,
   2554220882, 2821834349, 2952996808, 3210313671, 3336571891, 3584528711,
   113926993, 338241895, 666307205, 773529912, 1294757372, 1396182291,
   1695183700, 1986661051, 2177026350, 2456956037, 2730485921, 2820302411,
   3259730800, 3345764771, 3516065817, 3600352804, 4094571909, 275423344,
   430227734, 506948616, 659060556, 883997877, 958139571, 1322822218,
   1537002063, 1747873779, 1955562222, 2024104815, 2227730452, 2361852424,
   2428436474, 2756734187, 3204031479, 3329325298]

/-- The SHA-256 initial hash value. -/
def shaH0 : List Nat :=
  [1779033703, 3144134277, 1013904242, 2773480762,
   1359893119, 2600822924, 528734635, 1541459225]

/-- UTF-8 encoding of one character (`str.encode("utf-8")`, per character). -/
def utf8Char (c : Char) : List Nat :=
  let n := c.toNat
  if n < 0x80 then [n]
  else if n < 0x800 then
    [0xC0 ||| (n >>> 6), 0x80 ||| (n &&& 0x3F)]
  else if n < 0x10000 then
    [0xE0 ||| (n >>> 12), 0x80 ||| ((n >>> 6) &&& 0x3F), 0x80 ||| (n &&& 0x3F)]
  else
    [0xF0 ||| (n >>> 18), 0x80 ||| ((n >>> 12) &&& 0x3F),
     0x80 ||| ((n >>> 6) &&& 0x3F), 0x80 ||| (n &&& 0x3F)]

/-- UTF-8 encoding of a string as a byte list. -/
def utf8Bytes (s : String) : List Nat :=
  (s.data.map utf8Char).flatten

/-- Big-endian byte expansion of `n` into `k` bytes. -/
def beBytes (k n : Nat) : List Nat :=
  (List.range k).map (fun i => (n >>> (8 * (k - 1 - i))) % 256)

/-- SHA-256 message padding. -/
def shaPad (msg : List Nat) : List Nat :=
  let l := msg.length
  let zeros := (119 - (l % 64)) % 64
  msg ++ [0x80] ++ List.replicate zeros 0 ++ beBytes 8 (8 * l)

/-- Group a byte list into big-endian 32-bit words. -/
def toWords : List Nat → List Nat
  | b0 :: b1 :: b2 :: b3 :: rest => (((b0 * 256 + b1) * 256 + b2) * 256 + b3) :: toWords rest
  | _ => []

/-- Split a byte list into 64-byte chunks (fuel-based structural recursion;
the fuel, initialised to the list length, strictly dominates the number of
64-byte steps, so the zero-fuel case is unreachable). -/
def chunksAux : Nat → List Nat → List (List Nat)
  | _, [] => []
  | 0, l => [l]
  | fuel + 1, x :: xs => ((x :: xs).take 64) :: chunksAux fuel ((x :: xs).drop 64)

/-- Split a byte list into 64-byte chunks. -/
def chunks64 (l : List Nat) : List (List Nat) :=
  chunksAux l.length l

/-- Extend the 16 message-schedule words of a chunk to 64. -/
def scheduleExtend (w : Array Nat) : Array Nat :=
  (List.range 48).foldl
    (fun w k =>
      let i := k + 16
      let g := fun j => w.getD j 0
      w.push (w32 (g (i - 16) + smallSigma0 (g (i - 15)) + g (i - 7) + smallSigma1 (g (i - 2)))))
    w

/-- One SHA-256 compression round on the 8-word working state. -/
def compressRound (st : List Nat) (ki wi : Nat) : List Nat :=
  match st with
  | [a, b, c, d, e, f, g, h] =>
    let t1 := w32 (h + bigSigma1 e + chWord e f g + ki + wi)
    let t2 := w32 (bigSigma0 a + majWord a b c)
    [w32 (t1 + t2), a, b, c, w32 (d + t1), e, f, g]
  | other => other

/-- Process one 64-byte chunk. -/
def compressChunk (hs : List Nat) (chunk : List Nat) : List Nat :=
  let ws := scheduleExtend (Array.mk (toWords chunk))
  let st := (List.range 64).foldl
    (fun st i => compressRound st (shaK.getD i 0) (ws.getD i 0)) hs
  (hs.zip st).map (fun p => w32 (p.1 + p.2))

/-- SHA-256 digest of a byte list, as eight 32-bit words. -/
def sha256Words (msg : List Nat) : List Nat :=
  (chunks64 (shaPad msg)).foldl compressChunk shaH0

/-- Lowercase hexadecimal digit. -/
def hexDigitChar (n : Nat) : Char :=
  Char.ofNat (if n < 10 then 48 + n else 87 + n)

/-- Eight lowercase hex digits of a 32-bit word. -/
def wordHex (x : Nat) : List Char :=
  (List.range 8).map (fun i => hexDigitChar ((x >>> (4 * (7 - i))) % 16))

/-- Model of `fec_parse.sha256_hex`: hex digest of the UTF-8 encoding. -/
def sha256_hex (s : String) : String :=
  String.mk ((sha256Words (utf8Bytes s)).map wordHex).flatten

/-- Content-addressed event id built in `ingest_ie.run_ie_schedule_e` (and
`backfill.backfill_date_e`): `sha256_hex(f"{filing_id}|{raw_line}")`. -/
def eventId (filingId : Nat) (rawLine : String) : String :=
  sha256_hex (toString filingId ++ "|" ++ rawLine)

/-! ## Exceptions -/

/-- Python exceptions relevant to the pipeline.  `fileTooLarge` models
`fec_parse.FileTooLargeError` (carrying the probed size; the url and limit
it also carries play no role in any claim), `integrity` a database
uniqueness violation surfaced by SQLAlchemy, `typeError` a Python
`TypeError`, and `exc` any other exception with its message. -/
inductive PyErr where
  | fileTooLarge (sizeMb : ℚ)
  | integrity (msg : String)
  | typeError (msg : String)
  | exc (msg : String)
deriving DecidableEq, Repr

/-! ## Data model (`schemas.py`, restricted to claim-relevant columns) -/

/-- Row of `ingestion_tasks` (`schemas.IngestionTask`), key
`(filing_id, source_feed)`.  `updated_at` and `emailed_at` are omitted. -/
structure TaskRow where
  filing_id : Nat
  source_feed : String
  status : String
  failed_step : Option String := none
  error_message : Option String := none
  skip_reason : Option String := none
  file_size_mb : Option ℚ := none
  fec_url : Option String := none
deriving DecidableEq, Repr

/-- The `ingestion_tasks` table. -/
abbrev TaskStore := List TaskRow

/-- Model of `session.get(IngestionTask, (filing_id, source_feed))`. -/
def findTask (ts : TaskStore) (fid : Nat) (src : String) : Option TaskRow :=
  ts.find? (fun r => r.filing_id == fid && r.source_feed == src)

/-- Row of `filings_f3x` (`schemas.FilingF3X`), key `filing_id`.  `raw_meta`
is the feed item's metadata dict; `first_seen_utc`/`updated_at_utc` omitted. -/
structure F3XRow where
  filing_id : Nat
  committee_id : String
  committee_name : Option String
  form_type : Option String
  report_type : Option String
  coverage_from : Option DateT
  coverage_through : Option DateT
  filed_at_utc : Option Nat
  fec_url : String
  total_receipts : Option ℚ
  threshold_flag : Bool
  raw_meta : Option (List (String × String))
deriving DecidableEq, Repr

/-- The `filings_f3x` table. -/
abbrev F3XStore := List F3XRow

/-- Model of `session.get(FilingF3X, filing_id)`. -/
def findF3X (fs : F3XStore) (fid : Nat) : Option F3XRow :=
  fs.find? (fun r => r.filing_id == fid)

/-- The Schedule E field set produced by both tiers of
`fec_parse.extract_schedule_e_best_effort` (every field nullable; both tiers
return exactly these keys). -/
structure SEFields where
  expenditure_date : Option DateT
  amount : Option ℚ
  support_oppose : Option String
  candidate_id : Option String
  candidate_name : Option String
  candidate_office : Option String
  candidate_state : Option String
  candidate_district : Option String
  candidate_party : Option String
  election_code : Option String
  purpose : Option String
  payee_name : Option String
deriving DecidableEq, Repr

/-- Row of `ie_schedule_e` (`schemas.IEScheduleE`), key `event_id`.  The
per-expenditure columns are grouped in `fields`; `first_seen_utc` omitted. -/
structure IERow where
  event_id : String
  filing_id : Nat
  filer_id : String
  committee_id : String
  committee_name : Option String
  form_type : Option String
  report_type : Option String
  coverage_from : Option DateT
  coverage_through : Option DateT
  filed_at_utc : Option Nat
  fields : SEFields
  fec_url : String
  raw_line : String
deriving DecidableEq, Repr

/-- The `ie_schedule_e` table. -/
abbrev IEStore := List IERow

/-- Model of `session.get(IEScheduleE, event_id)`. -/
def findIE (es : IEStore) (eid : String) : Option IERow :=
  es.find? (fun r => r.event_id == eid)

/-! ## Claim ledger and status updates (`repo.py`) -/

/-- Model of `session.add(IngestionTask(...))` inside
`session.begin_nested()`: the savepoint flush raises an `IntegrityError` if
the key is already present, and `fault` injects any other store exception
raised during the insert (e.g. a transient connection failure). -/
def insertTaskRow (ts : TaskStore) (fault : Option PyErr) (fid : Nat) (src : String) :
    Except PyErr TaskStore :=
  match fault with
  | some e => .error e
  | none =>
    if (findTask ts fid src).isSome then
      .error (.integrity "UNIQUE constraint failed: ingestion_tasks")
    else
      .ok ({ filing_id := fid, source_feed := src, status := "claimed" } :: ts)

/-- Model of `repo.claim_filing`.  The existence check reads `checkStore`;
the insert runs against `insertStore`, which may differ when a concurrent
run inserted the same key between the check and the insert (the two
coincide for a single-threaded call).  `try/except Exception: return False`
around the nested transaction becomes the match on `insertTaskRow`; a
rolled-back savepoint leaves the store unchanged. -/
def claim_filing (checkStore insertStore : TaskStore) (fault : Option PyErr)
    (fid : Nat) (src : String) : Except PyErr (Bool × TaskStore) :=
  match findTask checkStore fid src with
  | some _ => .ok (false, insertStore)
  | none =>
    match insertTaskRow insertStore fault fid src with
    | .ok ts => .ok (true, ts)
    | .error _ => .ok (false, insertStore)

/-- Model of `repo.update_filing_status`: a no-op if the row is missing;
`failed_step`/`error_message` are only written when the argument is not
`None`.  (`session.get` by primary key touches at most one row; the map
form is equivalent under the one-row-per-key invariant.) -/
def update_filing_status (ts : TaskStore) (fid : Nat) (src : String) (status : String)
    (failed_step error_message : Option String) : TaskStore :=
  ts.map (fun r =>
    if r.filing_id == fid && r.source_feed == src then
      { r with
        status := status
        failed_step := match failed_step with | some v => some v | none => r.failed_step
        error_message := match error_message with | some v => some v | none => r.error_message }
    else r)

/-- Model of `repo.record_skipped_filing` (the correct four-argument form, as
exercised by the repository's own tests): writes skip metadata on the
existing row, no-op when the row is missing. -/
def record_skipped_filing (ts : TaskStore) (fid : Nat) (src : String) (reason : String)
    (file_size_mb : Option ℚ) (fec_url : Option String) : TaskStore :=
  ts.map (fun r =>
    if r.filing_id == fid && r.source_feed == src then
      { r with skip_reason := some reason, file_size_mb := file_size_mb, fec_url := fec_url }
    else r)

/-- Model of `repo.upsert_f3x`: insert when the `filing_id` is absent,
otherwise overwrite every mutable column (`raw_meta` only when the argument
is not `None`). -/
def upsert_f3x (fs : F3XStore) (filing_id : Nat) (committee_id : String)
    (committee_name form_type report_type : Option String)
    (coverage_from coverage_through : Option DateT) (filed_at_utc : Option Nat)
    (fec_url : String) (total_receipts : Option ℚ) (threshold_flag : Bool)
    (raw_meta : Option (List (String × String))) : F3XStore :=
  match findF3X fs filing_id with
  | none =>
    { filing_id := filing_id, committee_id := committee_id,
      committee_name := committee_name, form_type := form_type,
      report_type := report_type, coverage_from := coverage_from,
      coverage_through := coverage_through, filed_at_utc := filed_at_utc,
      fec_url := fec_url, total_receipts := total_receipts,
      threshold_flag := threshold_flag, raw_meta := raw_meta } :: fs
  | some _ =>
    fs.map (fun r =>
      if r.filing_id == filing_id then
        { r with
          committee_id := committee_id, committee_name := committee_name,
          form_type := form_type, report_type := report_type,
          coverage_from := coverage_from, coverage_through := coverage_through,
          filed_at_utc := filed_at_utc, fec_url := fec_url,
          total_receipts := total_receipts, threshold_flag := threshold_flag,
          raw_meta := match raw_meta with | some m => some m | none => r.raw_meta }
      else r)

/-- Model of `repo.insert_ie_event`: insert-only dedupe on the primary key
`event_id`; the nested-transaction `except Exception` turns any insert-time
exception (injected via `fault`) into `False` with the store unchanged. -/
def insert_ie_event (es : IEStore) (fault : Option PyErr) (e : IERow) : Bool × IEStore :=
  match findIE es e.event_id with
  | some _ => (false, es)
  | none =>
    match fault with
    | some _ => (false, es)
    | none => (true, e :: es)

/-! ## Two-tier Schedule E extraction (`fec_parse.py`) -/

/-- Model of `fec_parse.iter_pipe_rows`: the filing text split into lines and
each line split on `|`, blank lines dropped.  (`csv.reader` quoting of
embedded pipes is not modelled; FEC `.fec` files are plain pipe-delimited.) -/
def pipeRows (text : String) : List (List String) :=
  (splitOnCh '\n' text).filterMap
    (fun ln => if ln.isEmpty then none else some (splitOnCh '|' ln))

/-- An `SEFields` record with every field `None`. -/
def emptySEFields : SEFields :=
  { expenditure_date := none, amount := none, support_oppose := none,
    candidate_id := none, candidate_name := none, candidate_office := none,
    candidate_state := none, candidate_district := none, candidate_party := none,
    election_code := none, purpose := none, payee_name := none }

/-- Model of the fallback (tier-2) branch of
`fec_parse.extract_schedule_e_best_effort` for one delimited row: rows whose
first field does not start with `SE` are skipped; otherwise the raw line is
rebuilt with `"|".join(row)` and the heuristics pick the first date-shaped
token, the first token whose comma-stripped numeric value has magnitude
≥ 1.0, and the first token equal to `S` or `O`; every other field is left
`None`. -/
def fallbackRow (row : List String) : Option (String × SEFields) :=
  match row with
  | [] => none
  | r0 :: _ =>
    if startsWithStr r0 "SE" then
      some (String.intercalate "|" row,
        { emptySEFields with
          expenditure_date := row.findSome? parseMMDDYYYYstr
          amount := row.findSome? amountOfToken
          support_oppose := row.find? (fun t => t == "S" || t == "O") })
    else none

/-- The fallback scan over all delimited rows of the filing. -/
def fallbackSE (rows : List (List String)) : List (String × SEFields) :=
  rows.filterMap fallbackRow

/-- Model of `fec_parse.extract_schedule_e_best_effort` as a whole.  The
structured tier iterates `fecfile`'s parsed itemizations; its outcome —
either the list of `(raw_line, fields)` pairs it would yield, or an
exception — is a parameter (`tier1`), since the `fecfile` library is outside
the repository.  The generator yields the structured pairs and returns when
they are non-empty; on an exception or an empty structured result it falls
back to the raw line scan. -/
def extract_schedule_e_best_effort (tier1 : Except Unit (List (String × SEFields)))
    (rows : List (List String)) : List (String × SEFields) :=
  match tier1 with
  | .ok items => if items.isEmpty then fallbackSE rows else items
  | .error _ => fallbackSE rows

/-! ## Feed items and filing-id inference (`feeds.py`) -/

/-- Model of `feeds.RSSItem`.  `meta` is the key/value block that
`parse_meta` extracts from the item description (the description itself and
`parse_meta`'s marker-stripping regex play no further role in the claims);
`pubDate` is the UTC calendar date of `pub_date_utc` as a day number. -/
structure RSSItem where
  title : String
  link : String
  pubDate : Option Nat
  meta : List (String × String)
deriving DecidableEq, Repr

/-- Model of `meta.get(key)` on the parsed metadata dict. -/
def metaGet (m : List (String × String)) (k : String) : Option String :=
  (m.find? (fun p => p.1 == k)).map (fun p => p.2)

/-- Tail of `link.rsplit("/", 1)`, the candidate `<id>.fec` segment. -/
def linkTail (link : String) : String :=
  (splitOnCh '/' link).getLastD link

/-- Filing id inferred from the link: keep the final path segment, require a
`.fec` suffix whose stem is all digits. -/
def inferFromLink (link : String) : Option Nat :=
  let tail := linkTail link
  if endsWithStr tail ".fec" then
    let base := tail.dropRight 4
    if digitsOnly base then some (strToNat base) else none
  else none

/-- Model of `feeds.infer_filing_id`: prefer a digit-only `FilingId`
metadata field, else fall back to the link. -/
def infer_filing_id (item : RSSItem) : Option Nat :=
  match metaGet item.meta "FilingId" with
  | some fid =>
    if digitsOnly fid then some (strToNat fid) else inferFromLink item.link
  | none => inferFromLink item.link

/-! ## Size-limited download (`fec_parse.download_fec_text`) -/

/-- Model of `fec_parse.download_fec_text`.  `probe` is the result of the
`check_file_size` HEAD request (`None` when the server omits
`Content-Length` or the probe itself fails); `body` is the outcome of the
full `requests.get`.  The second component of the result records whether the
full-body GET was issued at all.  With a ceiling configured and a conclusive
probe above it, the function raises `FileTooLargeError` carrying the probed
size and the body is never requested. -/
def download_fec_text (probe : Option ℚ) (maxSizeMb : Option ℚ)
    (body : Except PyErr String) : Except PyErr String × Bool :=
  match maxSizeMb with
  | some limit =>
    match probe with
    | some size => if limit < size then (.error (.fileTooLarge size), false) else (body, true)
    | none => (body, true)
  | none => (body, true)

/-! ## Run controllers (`ingest_f3x.run_f3x`, `ingest_ie.run_ie_schedule_e`)

The durable state threaded through a pass.  `claimLog` is ghost
instrumentation recording every invocation of `claim_filing`, used to state
"never claimed" properties; it does not influence any behaviour. -/

/-- Durable store state for a pass (tasks, summaries, events) plus the ghost
claim log. -/
structure St where
  tasks : TaskStore := []
  f3x : F3XStore := []
  events : IEStore := []
  claimLog : List (Nat × String) := []
deriving DecidableEq, Repr

/-- Model of `ingest_f3x.F3XResult`. -/
structure F3XResult where
  new_count : Nat := 0
  failed_count : Nat := 0
  skipped_count : Nat := 0
  last_error : Option String := none
deriving DecidableEq, Repr

/-- Per-filing behaviour of the network and of the external `fecfile`
library during the F3X pass: the download of the header either raises or
succeeds, and on success the header parse either raises or produces the
normalized `col_a_total_receipts` (already `float`-converted, `None` when
missing or unconvertible) together with the committee name resolved by
`fec_lookup.resolve_committee_name`. -/
inductive F3XOutcome where
  | downloadErr (msg : String)
  | parseErr (msg : String)
  | ok (total : Option ℚ) (committee_name : Option String)
deriving DecidableEq, Repr

/-- Environment of an F3X pass: the per-filing outcome, and an injected
store fault for the claim insert (`None` in a healthy store). -/
structure F3XEnv where
  outcome : Nat → F3XOutcome
  claimFault : Nat → Option PyErr

/-- The threshold flag computed in `ingest_f3x.run_f3x`:
`total is not None and total >= receipts_threshold`. -/
def f3x_threshold_flag (total : Option ℚ) (threshold : ℚ) : Bool :=
  match total with
  | none => false
  | some t => decide (threshold ≤ t)

/-- The summary write performed by `run_f3x` on a successful parse: compute
the threshold flag from the total being written, then upsert. -/
def f3xWrite (fs : F3XStore) (threshold : ℚ) (fid : Nat) (item : RSSItem)
    (total : Option ℚ) (committee_name : Option String) : F3XStore :=
  upsert_f3x fs fid ((metaGet item.meta "CommitteeId").getD "")
    committee_name (metaGet item.meta "FormType") (metaGet item.meta "ReportType")
    (parse_mmddyyyy (metaGet item.meta "CoverageFrom"))
    (parse_mmddyyyy (metaGet item.meta "CoverageThrough"))
    item.pubDate item.link total (f3x_threshold_flag total threshold)
    (some item.meta)

/-- Processing of one successfully claimed item in `run_f3x` (lines 70–139):
status `downloading`, the download `try/except`, statuses
`downloaded`/`parsing`, the parse `try/except` ending in `ingested` or
`failed`, with `failed_step` and a 500-character-truncated error message on
each failure transition. -/
def processF3XItemClaimed (threshold : ℚ) (env : F3XEnv) (item : RSSItem) (fid : Nat)
    (res : F3XResult) (st : St) : F3XResult × St :=
  let st := { st with tasks := update_filing_status st.tasks fid "F3X" "downloading" none none }
  match env.outcome fid with
  | .downloadErr msg =>
    let m := pySlice msg 500
    let st := { st with
      tasks := update_filing_status st.tasks fid "F3X" "failed" (some "downloading") (some m) }
    ({ res with failed_count := res.failed_count + 1, last_error := some m }, st)
  | .parseErr msg =>
    let st := { st with tasks := update_filing_status st.tasks fid "F3X" "downloaded" none none }
    let st := { st with tasks := update_filing_status st.tasks fid "F3X" "parsing" none none }
    let m := pySlice msg 500
    let st := { st with
      tasks := update_filing_status st.tasks fid "F3X" "failed" (some "parsing") (some m) }
    ({ res with failed_count := res.failed_count + 1, last_error := some m }, st)
  | .ok total committee_name =>
    let st := { st with tasks := update_filing_status st.tasks fid "F3X" "downloaded" none none }
    let st := { st with tasks := update_filing_status st.tasks fid "F3X" "parsing" none none }
    let st := { st with f3x := f3xWrite st.f3x threshold fid item total committee_name }
    let st := { st with tasks := update_filing_status st.tasks fid "F3X" "ingested" none none }
    ({ res with new_count := res.new_count + 1 }, st)

/-- The item loop of `run_f3x`: stop at the first item published before
today (feed is newest-first), stop when the per-run cap is reached, skip
items without a filing id, count already-claimed items as skipped, and
process the rest.  Exceptions not enclosed in a handler propagate as
`.error` together with the store state at the raise point. -/
def run_f3x_loop (threshold : ℚ) (maxPerRun : Nat) (today : Nat) (env : F3XEnv) :
    List RSSItem → F3XResult → St → Except (PyErr × St) (F3XResult × St)
  | [], res, st => .ok (res, st)
  | item :: rest, res, st =>
    if item.pubDate.any (fun d => decide (d < today)) then .ok (res, st)
    else if maxPerRun ≤ res.new_count then .ok (res, st)
    else
      match infer_filing_id item with
      | none => run_f3x_loop threshold maxPerRun today env rest res st
      | some fid =>
        let st0 := { st with claimLog := st.claimLog ++ [(fid, "F3X")] }
        match claim_filing st0.tasks st0.tasks (env.claimFault fid) fid "F3X" with
        | .error e => .error (e, st0)
        | .ok (false, ts) =>
          run_f3x_loop threshold maxPerRun today env rest
            { res with skipped_count := res.skipped_count + 1 } { st0 with tasks := ts }
        | .ok (true, ts) =>
          let p := processF3XItemClaimed threshold env item fid res { st0 with tasks := ts }
          run_f3x_loop threshold maxPerRun today env rest p.1 p.2

/-- Model of `ingest_f3x.run_f3x`: the loop started on the fetched feed
items with a fresh result record.  (`max_per_run` is the value read by
`get_max_new_per_run`.) -/
def run_f3x (threshold : ℚ) (maxPerRun : Nat) (today : Nat) (env : F3XEnv)
    (items : List RSSItem) (st : St) : Except (PyErr × St) (F3XResult × St) :=
  run_f3x_loop threshold maxPerRun today env items {} st

/-- `ingest_ie.MAX_FILE_SIZE_MB`. -/
def maxFileSizeMb : ℚ := 50

/-- Environment of an IE pass, per filing id: the size probe, the body GET,
the outcome of `parse_fec_filing` plus `resolve_committee_name` (the
resolved committee name, or the exception raised), the structured tier of
`extract_schedule_e_best_effort` over the parsed dict, and an injected
store fault for the claim insert. -/
structure IEEnv where
  probe : Nat → Option ℚ
  body : Nat → Except PyErr String
  parseOutcome : Nat → Except PyErr (Option String)
  tier1 : Nat → Except Unit (List (String × SEFields))
  claimFault : Nat → Option PyErr

/-- The event row built in `run_ie_schedule_e` for one extracted
`(raw_line, fields)` pair: content-addressed id over the full raw line, raw
line truncated to 200 characters on the stored row. -/
def mkIERow (fid : Nat) (committee_id : String) (committee_name : Option String)
    (item : RSSItem) (raw : String) (fields : SEFields) : IERow :=
  { event_id := eventId fid raw, filing_id := fid, filer_id := committee_id,
    committee_id := committee_id, committee_name := committee_name,
    form_type := metaGet item.meta "FormType",
    report_type := metaGet item.meta "ReportType",
    coverage_from := parse_mmddyyyy (metaGet item.meta "CoverageFrom"),
    coverage_through := parse_mmddyyyy (metaGet item.meta "CoverageThrough"),
    filed_at_utc := item.pubDate, fields := fields,
    fec_url := item.link, raw_line := pySlice raw 200 }

/-- The per-pair insert loop of `run_ie_schedule_e`, counting newly inserted
events. -/
def insertIEEvents (es : IEStore) (rows : List IERow) : Nat × IEStore :=
  rows.foldl
    (fun acc e =>
      let (b, es') := insert_ie_event acc.2 none e
      (if b then acc.1 + 1 else acc.1, es'))
    (0, es)

/-- Processing of one successfully claimed item in `run_ie_schedule_e`
(lines 43–116).  The download `try` catches only `FileTooLargeError`, and
that handler's `record_skipped_filing(session, filing_id, "too_large", ...)`
call omits the required `reason` positional argument, so Python raises
`TypeError` there — before any skip metadata is recorded and before the
status update to `skipped`.  Any other download exception propagates.  The
processing `try/except Exception` marks the task `failed` with no
`failed_step` and no `error_message`.  Returns whether the filing counts as
new, the number of new events, and the updated state. -/
def processIEItemClaimed (env : IEEnv) (feedUrl : String) (item : RSSItem) (fid : Nat)
    (st : St) : Except (PyErr × St) (Bool × Nat × St) :=
  match download_fec_text (env.probe fid) (some maxFileSizeMb) (env.body fid) with
  | (.error (.fileTooLarge _), _) =>
    .error (.typeError "record_skipped_filing() missing 1 required positional argument: reason", st)
  | (.error e, _) => .error (e, st)
  | (.ok text, _) =>
    match env.parseOutcome fid with
    | .error _ =>
      .ok (false, 0,
        { st with tasks := update_filing_status st.tasks fid feedUrl "failed" none none })
    | .ok committee_name =>
      let committee_id := (metaGet item.meta "CommitteeId").getD ""
      let pairs := extract_schedule_e_best_effort (env.tier1 fid) (pipeRows text)
      let (cnt, es') := insertIEEvents st.events
        (pairs.map (fun p => mkIERow fid committee_id committee_name item p.1 p.2))
      let st := { st with events := es' }
      let st := { st with tasks := update_filing_status st.tasks fid feedUrl "ingested" none none }
      .ok (true, cnt, st)

/-- The inner (per-item) loop of `run_ie_schedule_e` for one feed: same
day-boundary and per-run-cap stops as F3X, claim keyed by the feed url. -/
def run_ie_items (maxPerRun today : Nat) (env : IEEnv) (feedUrl : String) :
    List RSSItem → Nat → Nat → St → Except (PyErr × St) (Nat × Nat × St)
  | [], nf, ne, st => .ok (nf, ne, st)
  | item :: rest, nf, ne, st =>
    if item.pubDate.any (fun d => decide (d < today)) then .ok (nf, ne, st)
    else if maxPerRun ≤ nf then .ok (nf, ne, st)
    else
      match infer_filing_id item with
      | none => run_ie_items maxPerRun today env feedUrl rest nf ne st
      | some fid =>
        let st0 := { st with claimLog := st.claimLog ++ [(fid, feedUrl)] }
        match claim_filing st0.tasks st0.tasks (env.claimFault fid) fid feedUrl with
        | .error e => .error (e, st0)
        | .ok (false, ts) =>
          run_ie_items maxPerRun today env feedUrl rest nf ne { st0 with tasks := ts }
        | .ok (true, ts) =>
          match processIEItemClaimed env feedUrl item fid { st0 with tasks := ts } with
          | .error e => .error e
          | .ok (isNew, cnt, st') =>
            run_ie_items maxPerRun today env feedUrl rest
              (if isNew then nf + 1 else nf) (ne + cnt) st'

/-- The outer (per-feed) loop of `run_ie_schedule_e`: after each feed, break
when the per-run cap has been reached. -/
def run_ie_feeds (maxPerRun today : Nat) (env : IEEnv) :
    List (String × List RSSItem) → Nat → Nat → St → Except (PyErr × St) (Nat × Nat × St)
  | [], nf, ne, st => .ok (nf, ne, st)
  | (url, items) :: restFeeds, nf, ne, st =>
    match run_ie_items maxPerRun today env url items nf ne st with
    | .error e => .error e
    | .ok (nf', ne', st') =>
      if maxPerRun ≤ nf' then .ok (nf', ne', st')
      else run_ie_feeds maxPerRun today env restFeeds nf' ne' st'

/-- Model of `ingest_ie.run_ie_schedule_e`: the feed loop started with zero
counts; the result is `(new_filings, new_events)`. -/
def run_ie_schedule_e (maxPerRun today : Nat) (env : IEEnv)
    (feeds : List (String × List RSSItem)) (st : St) :
    Except (PyErr × St) (Nat × Nat × St) :=
  run_ie_feeds maxPerRun today env feeds 0 0 st

/-! ## Backfill job status handling (`backfill.py`, `api.trigger_backfill`) -/

/-- Row of `backfill_jobs` (`schemas.BackfillJob`), key (`target_date`,
`filing_type`).  Times (`started_at`, `completed_at`) are UTC timestamps in
seconds. -/
structure BackfillJob where
  id : Nat
  target_date : Nat
  filing_type : String
  status : String
  started_at : Option Int := none
  completed_at : Option Int := none
  filings_found : Nat := 0
  error_message : Option String := none
deriving DecidableEq, Repr

/-- Outcome reported by `api.trigger_backfill`'s status check. -/
inductive TriggerOutcome where
  | alreadyRunning (jobId : Nat)
  | alreadyCompleted (filingsFound : Nat)
  | started
deriving DecidableEq, Repr

/-- The staleness bound in `api.trigger_backfill`:
`timedelta(minutes=10)`, in seconds. -/
def staleBoundSeconds : Int := 600

/-- Model of the job status check in `api.trigger_backfill` (lines
1146–1160, after date/type validation): a `running` job whose `started_at`
is older than the staleness bound is reset to `pending` and the request
falls through to start a fresh run; a `running` job within the bound (or
without `started_at`) reports `already_running`; a `completed` job reports
`already_completed`; anything else starts a run. -/
def trigger_backfill_check (jobOpt : Option BackfillJob) (now : Int) :
    TriggerOutcome × Option BackfillJob :=
  match jobOpt with
  | some job =>
    if job.status = "running" then
      match job.started_at with
      | some t =>
        if t < now - staleBoundSeconds then
          let job' := { job with status := "pending" }
          if job'.status = "completed" then (.alreadyCompleted job'.filings_found, some job')
          else (.started, some job')
        else (.alreadyRunning job.id, some job)
      | none => (.alreadyRunning job.id, some job)
    else if job.status = "completed" then (.alreadyCompleted job.filings_found, some job)
    else (.started, some job)
  | none => (.started, none)

/-- Model of the entry guard of `backfill.backfill_date_f3x` (lines 45–53,
identically `backfill_date_e`): a `completed` job returns immediately with
no processing; otherwise the job is marked `running` with a fresh
`started_at` and processing proceeds (the boolean). -/
def backfill_entry (job : BackfillJob) (now : Int) : BackfillJob × Bool :=
  if job.status = "completed" then (job, false)
  else ({ job with status := "running", started_at := some now }, true)

/-! ## Concrete fixtures used by the theorems below -/

/-- The task row inserted by a successful claim. -/
def claimedRow (fid : Nat) (src : String) : TaskRow :=
  { filing_id := fid, source_feed := src, status := "claimed" }

/-- A same-day feed item carrying filing id 100, used as a concrete fixture. -/
def itemA : RSSItem :=
  { title := "a", link := "x", pubDate := some 5, meta := [("FilingId", "100")] }

/-- An F3X environment whose claim insert always hits a transient store
fault. -/
def envC10 : F3XEnv :=
  { outcome := fun _ => .ok none none,
    claimFault := fun _ => some (.exc "connection reset") }

/-- A same-day IE feed item with filing id 3001. -/
def itemIE : RSSItem :=
  { title := "IE", link := "https://docquery.fec.gov/dcdev/posted/3001.fec",
    pubDate := some 10,
    meta := [("FilingId", "3001"), ("CommitteeId", "C00000002"), ("FormType", "F24")] }

/-- An IE environment whose body download raises a generic exception
(mirroring the repository test `test_ie_download_failure_marks_failed`,
which mocks `download_fec_text` with `Exception("Timeout")`). -/
def envTimeout : IEEnv :=
  { probe := fun _ => none, body := fun _ => .error (.exc "Timeout"),
    parseOutcome := fun _ => .ok none, tier1 := fun _ => .ok [],
    claimFault := fun _ => none }

/-- An IE environment whose size probe reports 120 MB. -/
def envOversize : IEEnv :=
  { probe := fun _ => some 120, body := fun _ => .ok "",
    parseOutcome := fun _ => .ok none, tier1 := fun _ => .ok [],
    claimFault := fun _ => none }

/-- An IE environment whose filing parse raises. -/
def envParseBoom : IEEnv :=
  { probe := fun _ => none, body := fun _ => .ok "",
    parseOutcome := fun _ => .error (.exc "bad data"), tier1 := fun _ => .ok [],
    claimFault := fun _ => none }

/-- Same-day F3X feed items with filing ids 2001 and 2002. -/
def itemF1 : RSSItem :=
  { title := "f1", link := "https://docquery.fec.gov/dcdev/posted/2001.fec",
    pubDate := some 10,
    meta := [("FilingId", "2001"), ("CommitteeId", "C00000001"), ("FormType", "F3XN")] }

/-- Second same-day F3X feed item. -/
def itemF2 : RSSItem :=
  { title := "f2", link := "https://docquery.fec.gov/dcdev/posted/2002.fec",
    pubDate := some 10,
    meta := [("FilingId", "2002"), ("CommitteeId", "C00000001"), ("FormType", "F3XN")] }

/-- An F3X environment where every filing downloads and parses successfully
with total receipts 75,000. -/
def envOkF3X : F3XEnv :=
  { outcome := fun _ => .ok (some 75000) (some "Test PAC"),
    claimFault := fun _ => none }

/-- An F3X environment whose header download always raises `msg`. -/
def envF3XDown (msg : String) : F3XEnv :=
  { outcome := fun _ => .downloadErr msg, claimFault := fun _ => none }

/-- An F3X environment whose header parse always raises `msg`. -/
def envF3XParse (msg : String) : F3XEnv :=
  { outcome := fun _ => .parseErr msg, claimFault := fun _ => none }

/-- A backfill job stuck in `running` since time 0. -/
def jobRunStale : BackfillJob :=
  { id := 1, target_date := 100, filing_type := "3x", status := "running",
    started_at := some 0 }

/-- A completed backfill job. -/
def jobDone : BackfillJob :=
  { id := 2, target_date := 100, filing_type := "e", status := "completed",
    filings_found := 5 }

set_option maxRecDepth 40000 in
/-- Sanity check of the hash model against the published SHA-256 test
vector for the message `abc`. -/
theorem sha256_hex_test_vector :
    sha256_hex "abc" = "ba7816bf8f01cfea414140de5dae2223b00361a396177a9cb410ff61f20015ad" := by
  decide

/-! ## Helper lemmas -/

/-- `claim_filing` returns normally on every input: both the uniqueness
violation and any injected fault are swallowed by the `except Exception`
handler. -/
theorem claim_filing_total (s s' : TaskStore) (fault : Option PyErr) (fid : Nat)
    (src : String) : ∃ b ts, claim_filing s s' fault fid src = .ok (b, ts) := by
  cases h1 : findTask s fid src with
  | some r => exact ⟨false, s', by simp [claim_filing, h1]⟩
  | none =>
    cases fault with
    | some e => exact ⟨false, s', by simp [claim_filing, insertTaskRow, h1]⟩
    | none =>
      cases h2 : (findTask s' fid src).isSome with
      | true => exact ⟨false, s', by simp [claim_filing, insertTaskRow, h1, h2]⟩
      | false =>
        exact ⟨true, claimedRow fid src :: s',
          by simp [claim_filing, insertTaskRow, h1, h2, claimedRow]⟩

/-- A fresh single-store claim inserts exactly the claimed row. -/
theorem claim_filing_fresh (s : TaskStore) (fid : Nat) (src : String)
    (h : findTask s fid src = none) :
    claim_filing s s none fid src = .ok (true, claimedRow fid src :: s) := by
  simp [claim_filing, insertTaskRow, h, claimedRow]

/-- A claim on an already-present key returns `false` and leaves the store
unchanged, whatever the insert would have done. -/
theorem claim_filing_dup (s s' : TaskStore) (fault : Option PyErr) (fid : Nat)
    (src : String) (r : TaskRow) (h : findTask s fid src = some r) :
    claim_filing s s' fault fid src = .ok (false, s') := by
  simp [claim_filing, h]

/-! ## C3 — claim idempotency, including the check/insert race -/

/-- C3: for every (filing_id, source) key the first `claim_filing` call
returns true and creates exactly one task row with status `claimed`; every
later call with the same key — including one racing with a concurrent insert
of the same key between the existence check and the insert — returns false
without raising an exception to its caller. -/
theorem claim_filing_idempotent_race_safe :
    (∀ (s : TaskStore) (fid : Nat) (src : String),
      findTask s fid src = none →
        claim_filing s s none fid src = .ok (true, claimedRow fid src :: s)
        ∧ (claimedRow fid src :: s).countP
            (fun r => r.filing_id == fid && r.source_feed == src) = 1
        ∧ (claimedRow fid src).status = "claimed")
    ∧ (∀ (s s' : TaskStore) (fault : Option PyErr) (fid : Nat) (src : String) (r : TaskRow),
      findTask s fid src = some r →
        claim_filing s s' fault fid src = .ok (false, s'))
    ∧ (∀ (s s' : TaskStore) (fid : Nat) (src : String) (r : TaskRow),
      findTask s fid src = none → findTask s' fid src = some r →
        claim_filing s s' none fid src = .ok (false, s'))
    ∧ (∀ (s s' : TaskStore) (fault : Option PyErr) (fid : Nat) (src : String),
      ∃ b ts, claim_filing s s' fault fid src = .ok (b, ts)) := by
  refine ⟨?_, ?_, ?_, claim_filing_total⟩
  · intro s fid src h
    refine ⟨claim_filing_fresh s fid src h, ?_, rfl⟩
    have hz : s.countP (fun r => r.filing_id == fid && r.source_feed == src) = 0 := by
      rw [List.countP_eq_zero]
      intro a ha
      have := List.find?_eq_none.mp h a ha
      simpa using this
    rw [List.countP_cons_of_pos _ _ (by simp [claimedRow]), hz]
  · intro s s' fault fid src r h
    exact claim_filing_dup s s' fault fid src r h
  · intro s s' fid src r h1 h2
    simp [claim_filing, insertTaskRow, h1, h2]

/-- Witness for C3 at a concrete key and empty stores. -/
theorem claim_filing_idempotent_race_safe_witness :
    claim_filing ([] : TaskStore) [] none 100 "F3X" = .ok (true, [claimedRow 100 "F3X"])
    ∧ claim_filing [claimedRow 100 "F3X"] [claimedRow 100 "F3X"] none 100 "F3X"
        = .ok (false, [claimedRow 100 "F3X"])
    ∧ claim_filing ([] : TaskStore) [claimedRow 100 "F3X"] none 100 "F3X"
        = .ok (false, [claimedRow 100 "F3X"]) :=
  ⟨(claim_filing_idempotent_race_safe.1 [] 100 "F3X" rfl).1,
   claim_filing_idempotent_race_safe.2.1 [claimedRow 100 "F3X"] [claimedRow 100 "F3X"]
     none 100 "F3X" (claimedRow 100 "F3X") (by rfl),
   claim_filing_idempotent_race_safe.2.2.1 [] [claimedRow 100 "F3X"] 100 "F3X"
     (claimedRow 100 "F3X") rfl (by rfl)⟩

/-! ## C10 — every insert exception is reported as "not claimed" -/

/-- C10: `claim_filing` never raises — every exception from the row insert,
not only a uniqueness violation, is caught and reported as `false`, leaving
the store unchanged (indistinguishable from an already-claimed key); in a
pass, such a filing is counted as skipped, gains no task row, and the pass
continues with the remaining items. -/
theorem claim_swallows_any_insert_exception :
    (∀ (s : TaskStore) (e : PyErr) (fid : Nat) (src : String),
      claim_filing s s (some e) fid src = .ok (false, s))
    ∧ (∀ (threshold : ℚ) (maxPerRun today : Nat) (env : F3XEnv) (item : RSSItem)
        (rest : List RSSItem) (res : F3XResult) (st : St) (fid : Nat) (e : PyErr),
      infer_filing_id item = some fid →
      item.pubDate.any (fun d => decide (d < today)) = false →
      res.new_count < maxPerRun →
      env.claimFault fid = some e →
      run_f3x_loop threshold maxPerRun today env (item :: rest) res st =
        run_f3x_loop threshold maxPerRun today env rest
          { res with skipped_count := res.skipped_count + 1 }
          { st with claimLog := st.claimLog ++ [(fid, "F3X")] }) := by
  have hswallow : ∀ (s : TaskStore) (e : PyErr) (fid : Nat) (src : String),
      claim_filing s s (some e) fid src = .ok (false, s) := by
    intro s e fid src
    cases hf : findTask s fid src with
    | some r => simp [claim_filing, hf]
    | none => simp [claim_filing, insertTaskRow, hf]
  refine ⟨hswallow, ?_⟩
  intro threshold maxPerRun today env item rest res st fid e h1 h2 h3 h4
  simp only [run_f3x_loop, h1, h2, h4, hswallow, Bool.false_eq_true, if_false,
    Nat.not_le.mpr h3]

/-- Witness for C10: a one-item pass against a faulting store counts the
item as skipped, creates no task row, and returns normally. -/
theorem claim_swallows_any_insert_exception_witness :
    run_f3x_loop 0 1 5 envC10 [itemA] {} {} =
      .ok ({ skipped_count := 1 }, { claimLog := [(100, "F3X")] }) := by
  rw [claim_swallows_any_insert_exception.2 0 1 5 envC10 itemA [] {} {} 100
    (.exc "connection reset") (by decide) (by decide) (by decide) rfl]
  rfl

/-! ## C1 — pass-level exception isolation -/

/-- The F3X loop returns its result record normally for every behaviour of
the downloader and parser: each raise point is enclosed in a handler, and
the claim itself never raises. -/
theorem run_f3x_loop_total (items : List RSSItem) :
    ∀ (threshold : ℚ) (maxPerRun today : Nat) (env : F3XEnv) (res : F3XResult) (st : St),
      ∃ out, run_f3x_loop threshold maxPerRun today env items res st = .ok out := by
  induction items with
  | nil => exact fun _ _ _ _ res st => ⟨(res, st), rfl⟩
  | cons item rest ih =>
    intro threshold maxPerRun today env res st
    simp only [run_f3x_loop]
    cases hp : item.pubDate.any (fun d => decide (d < today)) with
    | true => simp [hp]
    | false =>
      by_cases hc : maxPerRun ≤ res.new_count
      · simp [hp, hc]
      · simp only [hp, Bool.false_eq_true, if_false, if_neg hc]
        cases hi : infer_filing_id item with
        | none => exact ih threshold maxPerRun today env res st
        | some fid =>
          obtain ⟨b, ts, hcf⟩ :=
            claim_filing_total st.tasks st.tasks (env.claimFault fid) fid "F3X"
          simp only [hcf]
          cases b
          · exact ih threshold maxPerRun today env _ _
          · exact ih threshold maxPerRun today env _ _

/-- C1: the claim holds for `run_f3x` — for every behaviour of the
downloader and parser the pass returns its counts normally — but fails for
`run_ie_schedule_e`: a generic exception raised while downloading a filing
(only `FileTooLargeError` is caught there) propagates out of the pass,
leaving the filing's task in status `claimed` and preventing all later feed
items from being processed; the repository's own test
`test_ie_download_failure_marks_failed` expects this very input to be
caught and recorded instead. -/
theorem ie_pass_propagates_download_error :
    (∀ (threshold : ℚ) (maxPerRun today : Nat) (env : F3XEnv) (items : List RSSItem)
        (res : F3XResult) (st : St),
      ∃ out, run_f3x_loop threshold maxPerRun today env items res st = .ok out)
    ∧ run_ie_schedule_e 50 10 envTimeout [("http://fake-ie", [itemIE])] {} =
        .error (.exc "Timeout",
          { tasks := [claimedRow 3001 "http://fake-ie"],
            claimLog := [(3001, "http://fake-ie")] }) :=
  ⟨fun threshold maxPerRun today env items res st =>
    run_f3x_loop_total items threshold maxPerRun today env res st, rfl⟩

/-! ## C2 — oversize short-circuit -/

/-- C2: the body is indeed never downloaded when the probe exceeds the
ceiling (first conjunct), but the filing's task does not end in `skipped`:
the `FileTooLargeError` handler's `record_skipped_filing` call is missing
its required `reason` argument, so the pass dies with a `TypeError` and the
task row keeps status `claimed` with no `skip_reason` and no
`file_size_mb`. -/
theorem ie_oversize_typeerror_no_download :
    download_fec_text (some 120) (some 50) (.ok "body") = (.error (.fileTooLarge 120), false)
    ∧ run_ie_schedule_e 50 10 envOversize [("http://fake-ie", [itemIE])] {} =
        .error
          (.typeError "record_skipped_filing() missing 1 required positional argument: reason",
          { tasks := [claimedRow 3001 "http://fake-ie"],
            claimLog := [(3001, "http://fake-ie")] })
    ∧ (claimedRow 3001 "http://fake-ie").skip_reason = none
    ∧ (claimedRow 3001 "http://fake-ie").file_size_mb = none
    ∧ (claimedRow 3001 "http://fake-ie").status = "claimed" :=
  ⟨rfl, rfl, rfl, rfl, rfl⟩

/-! ## C4 — failure transitions and `failed_step` -/

/-- Truncation to 500 characters is bounded. -/
theorem pySlice_length_le (s : String) (n : Nat) : (pySlice s n).length ≤ n := by
  show (s.data.take n).length ≤ n
  exact s.data.length_take_le n

/-- C4: the F3X controller's failure transitions do record `failed_step`
(`downloading` / `parsing`) and a ≤500-character error message (first two
conjuncts), but the IE controller's do not: a parse failure there moves the
task to `failed` with `failed_step = None` and `error_message = None`. -/
theorem ie_failed_transition_lacks_step :
    (∀ (threshold : ℚ) (item : RSSItem) (fid : Nat) (res : F3XResult) (st : St) (msg : String),
      ((processF3XItemClaimed threshold (envF3XDown msg) item fid res st).2).tasks =
        update_filing_status
          (update_filing_status st.tasks fid "F3X" "downloading" none none)
          fid "F3X" "failed" (some "downloading") (some (pySlice msg 500))
      ∧ (pySlice msg 500).length ≤ 500)
    ∧ (∀ (threshold : ℚ) (item : RSSItem) (fid : Nat) (res : F3XResult) (st : St) (msg : String),
      ((processF3XItemClaimed threshold (envF3XParse msg) item fid res st).2).tasks =
        update_filing_status
          (update_filing_status
            (update_filing_status
              (update_filing_status st.tasks fid "F3X" "downloading" none none)
              fid "F3X" "downloaded" none none)
            fid "F3X" "parsing" none none)
          fid "F3X" "failed" (some "parsing") (some (pySlice msg 500))
      ∧ (pySlice msg 500).length ≤ 500)
    ∧ run_ie_schedule_e 50 10 envParseBoom [("http://fake-ie", [itemIE])] {} =
        .ok (0, 0,
          { tasks := [{ filing_id := 3001, source_feed := "http://fake-ie",
                        status := "failed", failed_step := none, error_message := none }],
            claimLog := [(3001, "http://fake-ie")] }) :=
  ⟨fun _ _ _ _ _ msg => ⟨rfl, pySlice_length_le msg 500⟩,
   fun _ _ _ _ _ msg => ⟨rfl, pySlice_length_le msg 500⟩,
   rfl⟩

/-! ## C7 — per-run cap -/

/-- Once the new-filings count has reached the cap, the IE item loop does
nothing further for this feed. -/
theorem run_ie_items_capped (maxPerRun today : Nat) (env : IEEnv) (feedUrl : String)
    (items : List RSSItem) (nf ne : Nat) (st : St) (h : maxPerRun ≤ nf) :
    run_ie_items maxPerRun today env feedUrl items nf ne st = .ok (nf, ne, st) := by
  cases items with
  | nil => rfl
  | cons item rest =>
    simp only [run_ie_items]
    cases hp : item.pubDate.any (fun d => decide (d < today)) with
    | true => simp [hp]
    | false => simp [hp, h]

/-- C7: once the count of filings successfully ingested in a pass has
reached the per-run cap, the pass stops before claiming any further feed
item — in the F3X loop, in the IE item loop, and across remaining IE feeds
(state, counts and the claim log are all left untouched); concretely, with
cap 1 and two eligible same-day items whose first succeeds, exactly one
task row is created and the second item is never claimed. -/
theorem per_run_cap_stops_claims :
    (∀ (threshold : ℚ) (maxPerRun today : Nat) (env : F3XEnv) (item : RSSItem)
        (rest : List RSSItem) (res : F3XResult) (st : St),
      maxPerRun ≤ res.new_count →
      run_f3x_loop threshold maxPerRun today env (item :: rest) res st = .ok (res, st))
    ∧ (∀ (maxPerRun today : Nat) (env : IEEnv) (feedUrl : String) (items : List RSSItem)
        (nf ne : Nat) (st : St),
      maxPerRun ≤ nf →
      run_ie_items maxPerRun today env feedUrl items nf ne st = .ok (nf, ne, st))
    ∧ (∀ (maxPerRun today : Nat) (env : IEEnv) (feeds : List (String × List RSSItem))
        (nf ne : Nat) (st : St),
      maxPerRun ≤ nf →
      run_ie_feeds maxPerRun today env feeds nf ne st = .ok (nf, ne, st))
    ∧ (run_f3x 50000 1 10 envOkF3X [itemF1, itemF2] {}).toOption.map
        (fun out => (out.1.new_count, out.2.tasks, out.2.claimLog))
      = some (1, [{ filing_id := 2001, source_feed := "F3X", status := "ingested" }],
          [(2001, "F3X")]) := by
  refine ⟨?_, run_ie_items_capped, ?_, rfl⟩
  · intro threshold maxPerRun today env item rest res st h
    simp only [run_f3x_loop]
    cases hp : item.pubDate.any (fun d => decide (d < today)) with
    | true => simp [hp]
    | false => simp [hp, h]
  · intro maxPerRun today env feeds nf ne st h
    cases feeds with
    | nil => rfl
    | cons fd restF =>
      obtain ⟨url, items⟩ := fd
      simp [run_ie_feeds, run_ie_items_capped maxPerRun today env url items nf ne st h, h]

/-- Witness for C7: a full F3X loop and IE feed loop with the cap already
reached stop immediately. -/
theorem per_run_cap_stops_claims_witness :
    run_f3x_loop 0 1 10 envOkF3X [itemF2] { new_count := 1 } { tasks := [claimedRow 2001 "F3X"] }
      = .ok ({ new_count := 1 }, { tasks := [claimedRow 2001 "F3X"] })
    ∧ run_ie_feeds 1 10 envTimeout [("u", [itemIE])] 1 0 {} = .ok (1, 0, {}) :=
  ⟨per_run_cap_stops_claims.1 0 1 10 envOkF3X itemF2 [] { new_count := 1 }
      { tasks := [claimedRow 2001 "F3X"] } (by decide),
   per_run_cap_stops_claims.2.2.1 1 10 envTimeout [("u", [itemIE])] 1 0 {} (by decide)⟩

/-! ## C5 — threshold flag recomputed on every summary write -/

/-- Looking up the upsert key after a keyed in-place update. -/
theorem findF3X_map_upd (fs : F3XStore) (fid : Nat) (g : F3XRow → F3XRow)
    (hg : ∀ r, (g r).filing_id = r.filing_id) :
    findF3X (fs.map (fun r => if r.filing_id == fid then g r else r)) fid
      = (findF3X fs fid).map (fun r => if r.filing_id == fid then g r else r) := by
  induction fs with
  | nil => rfl
  | cons a l ih =>
    unfold findF3X at ih ⊢
    rw [List.map_cons]
    by_cases h : (a.filing_id == fid) = true
    · have e1 : (if (a.filing_id == fid) = true then g a else a) = g a := if_pos h
      rw [e1]
      have hga : ((g a).filing_id == fid) = true := by rw [hg a]; exact h
      rw [List.find?_cons, List.find?_cons, hga, h]
      show some (g a) = some (if (a.filing_id == fid) = true then g a else a)
      rw [e1]
    · have e1 : (if (a.filing_id == fid) = true then g a else a) = a := if_neg h
      have hb : (a.filing_id == fid) = false := by
        cases hx : (a.filing_id == fid) with
        | true => exact absurd hx h
        | false => rfl
      rw [e1, List.find?_cons, List.find?_cons, hb]
      exact ih

/-- The row present at the upsert key after `f3xWrite` carries exactly the
total just written and the flag computed from it. -/
theorem findF3X_f3xWrite (fs : F3XStore) (threshold : ℚ) (fid : Nat) (item : RSSItem)
    (total : Option ℚ) (name : Option String) :
    ∃ r, findF3X (f3xWrite fs threshold fid item total name) fid = some r
      ∧ r.total_receipts = total
      ∧ r.threshold_flag = f3x_threshold_flag total threshold := by
  cases hf : findF3X fs fid with
  | none =>
    have hw : f3xWrite fs threshold fid item total name =
        { filing_id := fid, committee_id := (metaGet item.meta "CommitteeId").getD "",
          committee_name := name, form_type := metaGet item.meta "FormType",
          report_type := metaGet item.meta "ReportType",
          coverage_from := parse_mmddyyyy (metaGet item.meta "CoverageFrom"),
          coverage_through := parse_mmddyyyy (metaGet item.meta "CoverageThrough"),
          filed_at_utc := item.pubDate, fec_url := item.link, total_receipts := total,
          threshold_flag := f3x_threshold_flag total threshold,
          raw_meta := some item.meta } :: fs := by
      unfold f3xWrite upsert_f3x
      rw [hf]
    rw [hw]
    exact ⟨_, List.find?_cons_of_pos _ (by simp), rfl, rfl⟩
  | some r0 =>
    have hw : f3xWrite fs threshold fid item total name =
        fs.map (fun r => if r.filing_id == fid then
          { r with
            committee_id := (metaGet item.meta "CommitteeId").getD "",
            committee_name := name, form_type := metaGet item.meta "FormType",
            report_type := metaGet item.meta "ReportType",
            coverage_from := parse_mmddyyyy (metaGet item.meta "CoverageFrom"),
            coverage_through := parse_mmddyyyy (metaGet item.meta "CoverageThrough"),
            filed_at_utc := item.pubDate, fec_url := item.link, total_receipts := total,
            threshold_flag := f3x_threshold_flag total threshold,
            raw_meta := some item.meta }
          else r) := by
      unfold f3xWrite upsert_f3x
      rw [hf]
    have hf' : List.find? (fun r => r.filing_id == fid) fs = some r0 := hf
    have hr0 : (r0.filing_id == fid) = true :=
      @List.find?_some _ (fun r => r.filing_id == fid) r0 fs hf'
    have hmap := findF3X_map_upd fs fid
      (fun r => { r with
        committee_id := (metaGet item.meta "CommitteeId").getD "",
        committee_name := name, form_type := metaGet item.meta "FormType",
        report_type := metaGet item.meta "ReportType",
        coverage_from := parse_mmddyyyy (metaGet item.meta "CoverageFrom"),
        coverage_through := parse_mmddyyyy (metaGet item.meta "CoverageThrough"),
        filed_at_utc := item.pubDate, fec_url := item.link, total_receipts := total,
        threshold_flag := f3x_threshold_flag total threshold,
        raw_meta := some item.meta })
      (fun r => rfl)
    rw [hw, hmap, hf]
    refine ⟨_, rfl, ?_, ?_⟩
    · simp [hr0]
    · simp [hr0]

/-- C5: on every summary write the stored threshold flag equals
(total is not null AND total ≥ threshold), computed from the total being
written, and re-upserting an existing filing id overwrites the stored
total; in particular totals 40,000 then 60,000 against a 50,000 threshold
store flag `false` then `true` with the latest total. -/
theorem threshold_flag_recomputed_on_write :
    (∀ (fs : F3XStore) (threshold : ℚ) (fid : Nat) (item : RSSItem)
        (total : Option ℚ) (name : Option String),
      ∃ r, findF3X (f3xWrite fs threshold fid item total name) fid = some r
        ∧ r.total_receipts = total
        ∧ (r.threshold_flag = true ↔ ∃ t, total = some t ∧ threshold ≤ t))
    ∧ (∀ (fs : F3XStore) (fid : Nat) (item : RSSItem) (name : Option String),
      (∃ r, findF3X (f3xWrite fs 50000 fid item (some 40000) name) fid = some r
        ∧ r.threshold_flag = false ∧ r.total_receipts = some 40000)
      ∧ (∃ r, findF3X (f3xWrite (f3xWrite fs 50000 fid item (some 40000) name)
            50000 fid item (some 60000) name) fid = some r
        ∧ r.threshold_flag = true ∧ r.total_receipts = some 60000)) := by
  have main : ∀ (fs : F3XStore) (threshold : ℚ) (fid : Nat) (item : RSSItem)
      (total : Option ℚ) (name : Option String),
      ∃ r, findF3X (f3xWrite fs threshold fid item total name) fid = some r
        ∧ r.total_receipts = total
        ∧ (r.threshold_flag = true ↔ ∃ t, total = some t ∧ threshold ≤ t) := by
    intro fs threshold fid item total name
    obtain ⟨r, hr, htot, hflag⟩ := findF3X_f3xWrite fs threshold fid item total name
    refine ⟨r, hr, htot, ?_⟩
    rw [hflag]
    cases total with
    | none => simp [f3x_threshold_flag]
    | some t => simp [f3x_threshold_flag]
  refine ⟨main, ?_⟩
  intro fs fid item name
  constructor
  · obtain ⟨r, hr, htot, hflag⟩ := main fs 50000 fid item (some 40000) name
    refine ⟨r, hr, ?_, htot⟩
    have : ¬(r.threshold_flag = true) := by
      rw [hflag]
      rintro ⟨t, ht, hle⟩
      cases ht
      exact absurd hle (by norm_num)
    cases hx : r.threshold_flag with
    | true => exact absurd hx this
    | false => rfl
  · obtain ⟨r, hr, htot, hflag⟩ := main _ 50000 fid item (some 60000) name
    refine ⟨r, hr, ?_, htot⟩
    exact hflag.mpr ⟨60000, rfl, by norm_num⟩

/-! ## C6 — content-addressed event ids and insert-only dedupe -/

/-- C6: the event id is a deterministic function of (filing_id, raw line);
inserting an event whose id already exists returns false and leaves the
store unchanged; and inserting events built twice from the same
(filing_id, raw_line) yields exactly one stored row, the second insert
returning false. -/
theorem event_id_deterministic_insert_once :
    (∀ (fid fid' : Nat) (raw raw' : String), fid = fid' → raw = raw' →
      eventId fid raw = eventId fid' raw')
    ∧ (∀ (es : IEStore) (fault : Option PyErr) (e r : IERow),
      findIE es e.event_id = some r → insert_ie_event es fault e = (false, es))
    ∧ (∀ (es : IEStore) (fid : Nat) (cid : String) (cname : Option String)
        (item : RSSItem) (raw : String) (fields : SEFields),
      findIE es (eventId fid raw) = none →
        insert_ie_event es none (mkIERow fid cid cname item raw fields)
            = (true, mkIERow fid cid cname item raw fields :: es)
        ∧ insert_ie_event (mkIERow fid cid cname item raw fields :: es) none
              (mkIERow fid cid cname item raw fields)
            = (false, mkIERow fid cid cname item raw fields :: es)
        ∧ (mkIERow fid cid cname item raw fields :: es).countP
            (fun r => r.event_id == eventId fid raw) = 1) := by
  refine ⟨?_, ?_, ?_⟩
  · intro fid fid' raw raw' h1 h2
    rw [h1, h2]
  · intro es fault e r h
    simp [insert_ie_event, h]
  · intro es fid cid cname item raw fields h
    have he : (mkIERow fid cid cname item raw fields).event_id = eventId fid raw := rfl
    refine ⟨?_, ?_, ?_⟩
    · simp [insert_ie_event, he, h]
    · simp [insert_ie_event, findIE]
    · have hz : es.countP (fun r => r.event_id == eventId fid raw) = 0 := by
        rw [List.countP_eq_zero]
        intro a ha
        have := List.find?_eq_none.mp h a ha
        simpa using this
      rw [List.countP_cons_of_pos _ _ (by simp [mkIERow]), hz]

/-- Witness for C6: double insertion of the same (filing_id, raw_line)
event into an empty store keeps exactly one row. -/
theorem event_id_deterministic_insert_once_witness :
    insert_ie_event [] none (mkIERow 7 "C1" none itemA "SE|X" emptySEFields)
      = (true, [mkIERow 7 "C1" none itemA "SE|X" emptySEFields])
    ∧ insert_ie_event [mkIERow 7 "C1" none itemA "SE|X" emptySEFields] none
        (mkIERow 7 "C1" none itemA "SE|X" emptySEFields)
      = (false, [mkIERow 7 "C1" none itemA "SE|X" emptySEFields]) := by
  have h := event_id_deterministic_insert_once.2.2 [] 7 "C1" none itemA "SE|X"
    emptySEFields rfl
  exact ⟨h.1, h.2.1⟩

/-! ## C8 — shape of the fallback (tier-2) Schedule E parser -/

/-- C8: when the structured tier raises or yields no Schedule E
itemizations, the extraction equals the fallback scan; and every record the
fallback yields comes from a row whose first field starts with `SE`, has
the raw line rebuilt from the row, carries a date-shaped token's date when
one exists, the numeric value of some magnitude-≥1 token when one exists,
an `S`/`O` token when one is present, and `None` in every other field. -/
theorem fallback_parser_shape (tier1 : Except Unit (List (String × SEFields)))
    (rows : List (List String)) (h : tier1 = .error () ∨ tier1 = .ok []) :
    extract_schedule_e_best_effort tier1 rows = fallbackSE rows
    ∧ ∀ (row : List String) (raw : String) (f : SEFields),
        fallbackRow row = some (raw, f) →
        (∃ r0 rs, row = r0 :: rs ∧ startsWithStr r0 "SE" = true
          ∧ raw = String.intercalate "|" row)
        ∧ ((∃ t ∈ row, (parseMMDDYYYYstr t).isSome) →
            ∃ t ∈ row, (parseMMDDYYYYstr t).isSome ∧ f.expenditure_date = parseMMDDYYYYstr t)
        ∧ ((∃ t ∈ row, (amountOfToken t).isSome) →
            ∃ t ∈ row, (amountOfToken t).isSome ∧ f.amount = amountOfToken t)
        ∧ ((∃ t ∈ row, t = "S" ∨ t = "O") →
            ∃ t ∈ row, (t = "S" ∨ t = "O") ∧ f.support_oppose = some t)
        ∧ f.candidate_id = none ∧ f.candidate_name = none ∧ f.candidate_office = none
        ∧ f.candidate_state = none ∧ f.candidate_district = none
        ∧ f.candidate_party = none ∧ f.election_code = none ∧ f.purpose = none
        ∧ f.payee_name = none := by
  constructor
  · rcases h with h | h <;> rw [h] <;> rfl
  · intro row raw f hrow
    cases row with
    | nil => simp [fallbackRow] at hrow
    | cons r0 rs =>
      by_cases hse : startsWithStr r0 "SE" = true
      · have hpair : (String.intercalate "|" (r0 :: rs),
            { emptySEFields with
              expenditure_date := (r0 :: rs).findSome? parseMMDDYYYYstr
              amount := (r0 :: rs).findSome? amountOfToken
              support_oppose := (r0 :: rs).find? (fun t => t == "S" || t == "O") })
            = ((raw, f) : String × SEFields) := by
          have := hrow
          simp only [fallbackRow, hse, if_true] at this
          exact Option.some.inj this
        have hraw : String.intercalate "|" (r0 :: rs) = raw := congrArg Prod.fst hpair
        have hfe : ({ emptySEFields with
            expenditure_date := (r0 :: rs).findSome? parseMMDDYYYYstr
            amount := (r0 :: rs).findSome? amountOfToken
            support_oppose := (r0 :: rs).find? (fun t => t == "S" || t == "O") }
            : SEFields) = f := congrArg Prod.snd hpair
        refine ⟨⟨r0, rs, rfl, hse, hraw.symm⟩, ?_, ?_, ?_, ?_, ?_, ?_, ?_, ?_, ?_, ?_, ?_, ?_⟩
        · rintro ⟨t, ht, hts⟩
          have hne : (r0 :: rs).findSome? parseMMDDYYYYstr ≠ none := by
            intro hnone
            have := List.findSome?_eq_none_iff.mp hnone t ht
            rw [this] at hts
            exact absurd hts (by simp)
          obtain ⟨d, hd⟩ := Option.ne_none_iff_exists'.mp hne
          obtain ⟨t', ht', hpt'⟩ := List.exists_of_findSome?_eq_some hd
          refine ⟨t', ht', by rw [hpt']; rfl, ?_⟩
          rw [← hfe]
          show (r0 :: rs).findSome? parseMMDDYYYYstr = parseMMDDYYYYstr t'
          rw [hd, hpt']
        · rintro ⟨t, ht, hts⟩
          have hne : (r0 :: rs).findSome? amountOfToken ≠ none := by
            intro hnone
            have := List.findSome?_eq_none_iff.mp hnone t ht
            rw [this] at hts
            exact absurd hts (by simp)
          obtain ⟨d, hd⟩ := Option.ne_none_iff_exists'.mp hne
          obtain ⟨t', ht', hpt'⟩ := List.exists_of_findSome?_eq_some hd
          refine ⟨t', ht', by rw [hpt']; rfl, ?_⟩
          rw [← hfe]
          show (r0 :: rs).findSome? amountOfToken = amountOfToken t'
          rw [hd, hpt']
        · rintro ⟨t, ht, hto⟩
          have hs : ((r0 :: rs).find? (fun t => t == "S" || t == "O")).isSome :=
            List.find?_isSome.mpr ⟨t, ht, by rcases hto with h' | h' <;> simp [h']⟩
          obtain ⟨t0, ht0⟩ := Option.isSome_iff_exists.mp hs
          have hp : (t0 == "S" || t0 == "O") = true :=
            @List.find?_some _ (fun t => t == "S" || t == "O") t0 (r0 :: rs) ht0
          refine ⟨t0, List.mem_of_find?_eq_some ht0, by simpa using hp, ?_⟩
          rw [← hfe]
          show (r0 :: rs).find? (fun t => t == "S" || t == "O") = some t0
          exact ht0
        all_goals (rw [← hfe]; rfl)
      · simp [fallbackRow, hse] at hrow

/-- Witness for C8: a failed structured tier falls back to the raw scan on
a concrete two-row filing. -/
theorem fallback_parser_shape_witness :
    extract_schedule_e_best_effort (Except.error ())
        [["SE", "02/15/2025", "5000", "S"], ["F24", "x"]]
      = fallbackSE [["SE", "02/15/2025", "5000", "S"], ["F24", "x"]] :=
  (fallback_parser_shape (Except.error ())
    [["SE", "02/15/2025", "5000", "S"], ["F24", "x"]] (Or.inl rfl)).1

/-! ## C9 — backfill stale-job recovery and completed-job skip -/

/-- C9: a `running` backfill job whose `started_at` is older than the
10-minute staleness bound is reset to `pending` by the status check and a
fresh run then proceeds; a `completed` job reports `already_completed`
unchanged, and its entry guard performs no processing. -/
theorem backfill_stale_reset_completed_skip :
    (∀ (job : BackfillJob) (t now : Int),
      job.status = "running" → job.started_at = some t → t < now - staleBoundSeconds →
      trigger_backfill_check (some job) now = (.started, some { job with status := "pending" })
      ∧ (backfill_entry { job with status := "pending" } now).2 = true)
    ∧ (∀ (job : BackfillJob) (now : Int),
      job.status = "completed" →
      trigger_backfill_check (some job) now = (.alreadyCompleted job.filings_found, some job)
      ∧ backfill_entry job now = (job, false)) := by
  constructor
  · intro job t now h1 h2 h3
    constructor
    · simp [trigger_backfill_check, h1, h2, h3]
    · simp [backfill_entry]
  · intro job now h
    constructor
    · simp [trigger_backfill_check, h]
    · simp [backfill_entry, h]

/-- Witness for C9 at a stale running job and a completed job. -/
theorem backfill_stale_reset_completed_skip_witness :
    trigger_backfill_check (some jobRunStale) 1000
      = (.started, some { jobRunStale with status := "pending" })
    ∧ trigger_backfill_check (some jobDone) 1000
      = (.alreadyCompleted jobDone.filings_found, some jobDone) :=
  ⟨(backfill_stale_reset_completed_skip.1 jobRunStale 0 1000 rfl rfl (by decide)).1,
   (backfill_stale_reset_completed_skip.2 jobDone 1000 rfl).1⟩

end Sludgewire
